import Mathlib

/-!
Verification of the Validated Field Extractor of the Automated-Call-Center
repository: the interactive phone-number intake loop
`get_patient_phoneNumber` (src/server/agents/sql/functions), consisting of
an unbounded prompt loop, an external extraction call, a sentinel check
against the literal `Invalid`, and the grammar check
`re.fullmatch(r"(\+92\d{10}|03\d{9})", phone_extracted)`.

The Python function is embedded shallowly:
- Python's `\d` (Unicode mode) is `pyIsDigit`: membership in Unicode
  category Nd, given by the table of Nd runs of Unicode 15.1 (the Unicode
  version of CPython 3.13, which compiled the source).
- Python's `str.strip()` is `pyStrip`, over the `str.isspace` character set.
- The regex fullmatch is `phoneFullmatch`, the alternation of the two
  anchored branches.
- The interactive loop is `run`, a fuel-indexed interpreter over an
  operator-input stream `inputs : Nat → String` and an extraction service
  `extract : String → Except Unit String` (`Except.error` models an
  exception raised by the external call, which the Python code does not
  catch). The source strips both the operator input
  (`input(...).strip()`) and the extraction reply
  (`create_prompt(...).strip()`) before testing them; `run` does the
  same. `run` also returns the trace of I/O events the loop performs.
-/

namespace CallCenter

/-- Starts of the runs of Unicode category Nd (decimal digits), the
character class matched by `\d` in a Python 3.13 `str` pattern.
Each pair `(a, b)` is an inclusive run of codepoints. -/
def ndRanges : List (Nat × Nat) :=
  [(0x30, 0x39), (0x660, 0x669), (0x6F0, 0x6F9), (0x7C0, 0x7C9),
   (0x966, 0x96F), (0x9E6, 0x9EF), (0xA66, 0xA6F), (0xAE6, 0xAEF),
   (0xB66, 0xB6F), (0xBE6, 0xBEF), (0xC66, 0xC6F), (0xCE6, 0xCEF),
   (0xD66, 0xD6F), (0xDE6, 0xDEF), (0xE50, 0xE59), (0xED0, 0xED9),
   (0xF20, 0xF29), (0x1040, 0x1049), (0x1090, 0x1099), (0x17E0, 0x17E9),
   (0x1810, 0x1819), (0x1946, 0x194F), (0x19D0, 0x19D9), (0x1A80, 0x1A89),
   (0x1A90, 0x1A99), (0x1B50, 0x1B59), (0x1BB0, 0x1BB9), (0x1C40, 0x1C49),
   (0x1C50, 0x1C59), (0xA620, 0xA629), (0xA8D0, 0xA8D9), (0xA900, 0xA909),
   (0xA9D0, 0xA9D9), (0xA9F0, 0xA9F9), (0xAA50, 0xAA59), (0xABF0, 0xABF9),
   (0xFF10, 0xFF19), (0x104A0, 0x104A9), (0x10D30, 0x10D39),
   (0x11066, 0x1106F), (0x110F0, 0x110F9), (0x11136, 0x1113F),
   (0x111D0, 0x111D9), (0x112F0, 0x112F9), (0x11450, 0x11459),
   (0x114D0, 0x114D9), (0x11650, 0x11659), (0x116C0, 0x116C9),
   (0x11730, 0x11739), (0x118E0, 0x118E9), (0x11950, 0x11959),
   (0x11C50, 0x11C59), (0x11D50, 0x11D59), (0x11DA0, 0x11DA9),
   (0x11F50, 0x11F59), (0x16A60, 0x16A69), (0x16AC0, 0x16AC9),
   (0x16B50, 0x16B59), (0x1D7CE, 0x1D7FF), (0x1E140, 0x1E149),
   (0x1E2F0, 0x1E2F9), (0x1E4F0, 0x1E4F9), (0x1E950, 0x1E959),
   (0x1FBF0, 0x1FBF9)]

/-- `\d` of the Python pattern: a Unicode decimal digit (category Nd). -/
def pyIsDigit (c : Char) : Bool :=
  ndRanges.any fun p => p.1 ≤ c.toNat && c.toNat ≤ p.2

/-- The character set stripped by Python's `str.strip()` with no
arguments: the codepoints for which `str.isspace()` holds. -/
def pyIsSpace (c : Char) : Bool :=
  c.toNat ∈ [0x9, 0xA, 0xB, 0xC, 0xD, 0x1C, 0x1D, 0x1E, 0x1F, 0x20,
    0x85, 0xA0, 0x1680, 0x2000, 0x2001, 0x2002, 0x2003, 0x2004, 0x2005,
    0x2006, 0x2007, 0x2008, 0x2009, 0x200A, 0x2028, 0x2029, 0x202F,
    0x205F, 0x3000]

/-- Python's `str.strip()`: remove leading and trailing whitespace. -/
def pyStrip (s : String) : String :=
  ⟨((s.data.dropWhile pyIsSpace).reverse.dropWhile pyIsSpace).reverse⟩

/-- Branch `03\d{9}` of the pattern, anchored at both ends:
the literal `03` followed by exactly 9 decimal digits. -/
def matchLocal (l : List Char) : Bool :=
  match l with
  | '0' :: '3' :: rest => rest.length == 9 && rest.all pyIsDigit
  | _ => false

/-- Branch `\+92\d{10}` of the pattern, anchored at both ends:
the literal `+92` followed by exactly 10 decimal digits. -/
def matchIntl (l : List Char) : Bool :=
  match l with
  | '+' :: '9' :: '2' :: rest => rest.length == 10 && rest.all pyIsDigit
  | _ => false

/-- `re.fullmatch(r"(\+92\d{10}|03\d{9})", s)` of the source, as a
Boolean: the whole string matches one of the two branches. -/
def phoneFullmatch (s : String) : Bool :=
  matchIntl s.data || matchLocal s.data

/-- The sentinel literal the extraction prompt instructs the service to
return when no phone number is present. -/
def sentinel : String := "Invalid"

/-- The notice printed when the stripped operator input is empty. -/
def emptyMsg : String :=
  "Agent: Input cannot be empty. Please enter a valid phone number."

/-- The notice printed on a rejected cycle (sentinel or grammar
mismatch), from the source. -/
def rejectMsg : String :=
  "Agent: Not a valid phone number. Please enter a valid Pakistani number (e.g., 03207673078 or +923207373878)."

/-- The acceptance test of one cycle, over an arbitrary grammar check
`v`: the negation of the source's rejection test
`phone_extracted == "Invalid" or not re.fullmatch(...)`. The `or`
short-circuits left-to-right, so the sentinel comparison decides first;
the actual code instantiates `v` with `phoneFullmatch` and applies the
test to the stripped reply. -/
def cycleAccepts (v : String → Bool) (c : String) : Bool :=
  (c != sentinel) && v c

/-- One observable I/O action of the loop. -/
inductive Ev : Type
  | prompt : Ev
  | notice : String → Ev
  | extractCall : String → Ev
deriving DecidableEq, Repr

/-- State of a (possibly unfinished) run of the loop. -/
inductive Outcome : Type
  | accepted : String → Outcome
  | aborted : Outcome
  | running : Outcome
deriving DecidableEq, Repr

/-- Fuel-indexed interpreter of the `while True` loop of
`get_patient_phoneNumber`. `inputs j` is the operator's reply to the
`j`-th prompt; `extract` is the external extraction call on the stripped
input (`Except.error` is an uncaught exception, which propagates as
`Outcome.aborted`); `Outcome.running` means the fuel ran out with the
loop still going. The second component is the trace of I/O events. -/
def run (inputs : Nat → String) (extract : String → Except Unit String) :
    Nat → Nat → Outcome × List Ev
  | 0, _ => (Outcome.running, [])
  | fuel + 1, i =>
    let raw := pyStrip (inputs i)
    if raw = "" then
      let rest := run inputs extract fuel (i + 1)
      (rest.1, Ev.prompt :: Ev.notice emptyMsg :: rest.2)
    else
      match extract raw with
      | Except.error _ => (Outcome.aborted, [Ev.prompt, Ev.extractCall raw])
      | Except.ok c =>
        let cand := pyStrip c
        if cycleAccepts phoneFullmatch cand then
          (Outcome.accepted cand, [Ev.prompt, Ev.extractCall raw])
        else
          let rest := run inputs extract fuel (i + 1)
          (rest.1,
            Ev.prompt :: Ev.extractCall raw :: Ev.notice rejectMsg :: rest.2)

/-- Number of extraction-service invocations in a trace. -/
def countExtractCalls : List Ev → Nat
  | [] => 0
  | Ev.extractCall _ :: es => countExtractCalls es + 1
  | _ :: es => countExtractCalls es

/-- Number of Rejected cycles recorded in a trace (rejection notices). -/
def countRejected : List Ev → Nat
  | [] => 0
  | Ev.notice m :: es =>
    countRejected es + (if m = rejectMsg then 1 else 0)
  | _ :: es => countRejected es

/-- Cycle `j` succeeds: its stripped input is non-empty, extraction
returns a reply, and the stripped reply passes the acceptance test. -/
def cycleSucceeds (inputs : Nat → String)
    (extract : String → Except Unit String) (j : Nat) : Prop :=
  pyStrip (inputs j) ≠ "" ∧
    ∃ c, extract (pyStrip (inputs j)) = Except.ok c ∧
      cycleAccepts phoneFullmatch (pyStrip c) = true

/-- The candidate cycle `j` tests and, on success, returns: the
extraction reply stripped (meaningful when extraction succeeds there). -/
def candidateAt (inputs : Nat → String)
    (extract : String → Except Unit String) (j : Nat) : String :=
  pyStrip (((extract (pyStrip (inputs j))).toOption).getD "")

end CallCenter

namespace CallCenter

/-- Characterization of the `03\d{9}` branch at the character-list level. -/
theorem matchLocal_iff (l : List Char) :
    matchLocal l = true ↔
      ∃ rest, l = '0' :: '3' :: rest ∧ rest.length = 9 ∧
        rest.all pyIsDigit = true := by
  unfold matchLocal
  split
  · rename_i rest
    simp only [Bool.and_eq_true, beq_iff_eq]
    constructor
    · rintro ⟨h9, hall⟩
      exact ⟨rest, rfl, h9, hall⟩
    · rintro ⟨r, hr, h9, hall⟩
      obtain rfl : rest = r := by
        injection hr with h1 h2
        injection h2
      exact ⟨h9, hall⟩
  · rename_i hno
    simp only [Bool.false_eq_true, false_iff]
    rintro ⟨r, rfl, -, -⟩
    exact hno r rfl

/-- Characterization of the `\+92\d{10}` branch at the character-list
level. -/
theorem matchIntl_iff (l : List Char) :
    matchIntl l = true ↔
      ∃ rest, l = '+' :: '9' :: '2' :: rest ∧ rest.length = 10 ∧
        rest.all pyIsDigit = true := by
  unfold matchIntl
  split
  · rename_i rest
    simp only [Bool.and_eq_true, beq_iff_eq]
    constructor
    · rintro ⟨h10, hall⟩
      exact ⟨rest, rfl, h10, hall⟩
    · rintro ⟨r, hr, h10, hall⟩
      obtain rfl : rest = r := by
        injection hr with h1 h2
        injection h2 with h3 h4
        injection h4
      exact ⟨h10, hall⟩
  · rename_i hno
    simp only [Bool.false_eq_true, false_iff]
    rintro ⟨r, rfl, -, -⟩
    exact hno r rfl

/-- C1: the Validator accepts a string iff it is the literal `03`
followed by exactly 9 decimal digits, or the literal `+92` followed by
exactly 10 decimal digits (the whole string is consumed: anything else —
wrong prefix or digit count, extra characters, whitespace, non-digit
characters in the run — is rejected). -/
theorem validator_characterization (s : String) :
    phoneFullmatch s = true ↔
      (∃ t : String, s = "03" ++ t ∧ t.length = 9 ∧
        t.data.all pyIsDigit = true) ∨
      (∃ t : String, s = "+92" ++ t ∧ t.length = 10 ∧
        t.data.all pyIsDigit = true) := by
  obtain ⟨l⟩ := s
  unfold phoneFullmatch
  rw [Bool.or_eq_true, matchIntl_iff, matchLocal_iff]
  constructor
  · rintro (⟨rest, hl, hlen, hall⟩ | ⟨rest, hl, hlen, hall⟩)
    · exact Or.inr ⟨⟨rest⟩, congrArg String.mk hl, hlen, hall⟩
    · exact Or.inl ⟨⟨rest⟩, congrArg String.mk hl, hlen, hall⟩
  · rintro (⟨⟨d⟩, ht, hlen, hall⟩ | ⟨⟨d⟩, ht, hlen, hall⟩)
    · exact Or.inr ⟨d, congrArg String.data ht, hlen, hall⟩
    · exact Or.inl ⟨d, congrArg String.data ht, hlen, hall⟩

/-- C8: the Validator is a pure, stable predicate: two validations of the
same string always agree, and a string it has accepted is accepted again
on re-validation. -/
theorem validator_pure_stable (s : String) :
    phoneFullmatch s = phoneFullmatch s ∧
      (phoneFullmatch s = true → phoneFullmatch s = true) :=
  ⟨rfl, fun h => h⟩

/-- Witness for `validator_pure_stable` at a concrete accepted string. -/
theorem validator_pure_stable_witness :
    phoneFullmatch "03207673078" = true :=
  (validator_pure_stable "03207673078").2 (by decide)

/-- The nine Arabic-Indic digit characters U+0660 … U+0668. -/
def arabicIndicDigits : List Char :=
  (List.range 9).map fun k => Char.ofNat (0x660 + k)

/-- A candidate made of the ASCII literal `03` followed by nine
Arabic-Indic digits. -/
def arabicCandidate : String :=
  ⟨'0' :: '3' :: arabicIndicDigits⟩

/-- C9: because `\d` in a Python 3.13 str pattern matches any Unicode
decimal digit, the Validator accepts `03` followed by nine Arabic-Indic
digits — none of which is an ASCII digit — and a run in which the
extraction service replies with that string returns it as the
ValidatedField. -/
theorem unicode_digits_accepted :
    phoneFullmatch arabicCandidate = true ∧
      arabicIndicDigits.all (fun c => !(('0' ≤ c) && (c ≤ '9'))) = true ∧
      run (fun _ => "number") (fun _ => Except.ok arabicCandidate) 1 0 =
        (Outcome.accepted arabicCandidate,
          [Ev.prompt, Ev.extractCall "number"]) :=
  ⟨by decide, by decide, by decide⟩

/-- C3: the sentinel `Invalid` is rejected before grammar matching: the
cycle acceptance test rejects the sentinel whatever the grammar check
would say (so the Validator's verdict on it is never consulted), and a
cycle whose extraction reply is the sentinel emits the rejection notice
and loops on. -/
theorem sentinel_short_circuit :
    (∀ v : String → Bool, cycleAccepts v sentinel = false) ∧
      ∀ (inputs : Nat → String) (extract : String → Except Unit String)
        (fuel i : Nat), pyStrip (inputs i) ≠ "" →
        extract (pyStrip (inputs i)) = Except.ok sentinel →
        run inputs extract (fuel + 1) i =
          ((run inputs extract fuel (i + 1)).1,
            Ev.prompt :: Ev.extractCall (pyStrip (inputs i)) ::
              Ev.notice rejectMsg :: (run inputs extract fuel (i + 1)).2) := by
  constructor
  · intro v
    simp [cycleAccepts]
  · intro inputs extract fuel i hne hok
    have hs : pyStrip sentinel = sentinel := by decide
    simp [run, hne, hok, hs, cycleAccepts]

/-- Witness for `sentinel_short_circuit` at a concrete sentinel run. -/
theorem sentinel_short_circuit_witness :
    run (fun _ => "x") (fun _ => Except.ok sentinel) 1 0 =
      ((run (fun _ => "x") (fun _ => Except.ok sentinel) 0 1).1,
        Ev.prompt :: Ev.extractCall (pyStrip ((fun _ : Nat => "x") 0)) ::
          Ev.notice rejectMsg ::
          (run (fun _ => "x") (fun _ => Except.ok sentinel) 0 1).2) :=
  sentinel_short_circuit.2 (fun _ => "x") (fun _ => Except.ok sentinel) 0 0
    (by decide) rfl

/-- C4: a cycle whose operator input strips to empty emits the
"cannot be empty" notice and re-prompts at once: the extraction service
is not called during the cycle and the count of Rejected cycles does not
change. -/
theorem empty_input_reprompts (inputs : Nat → String)
    (extract : String → Except Unit String) (fuel i : Nat)
    (h : pyStrip (inputs i) = "") :
    run inputs extract (fuel + 1) i =
      ((run inputs extract fuel (i + 1)).1,
        Ev.prompt :: Ev.notice emptyMsg ::
          (run inputs extract fuel (i + 1)).2) ∧
    countExtractCalls (run inputs extract (fuel + 1) i).2 =
      countExtractCalls (run inputs extract fuel (i + 1)).2 ∧
    countRejected (run inputs extract (fuel + 1) i).2 =
      countRejected (run inputs extract fuel (i + 1)).2 := by
  have htr : run inputs extract (fuel + 1) i =
      ((run inputs extract fuel (i + 1)).1,
        Ev.prompt :: Ev.notice emptyMsg ::
          (run inputs extract fuel (i + 1)).2) := by
    simp [run, h]
  refine ⟨htr, ?_, ?_⟩ <;> rw [htr] <;>
    simp [countExtractCalls, countRejected, emptyMsg, rejectMsg]

/-- Witness for `empty_input_reprompts` at a whitespace-only input. -/
theorem empty_input_reprompts_witness :
    run (fun _ => " ") (fun _ => Except.ok "z") 1 0 =
      ((run (fun _ => " ") (fun _ => Except.ok "z") 0 1).1,
        Ev.prompt :: Ev.notice emptyMsg ::
          (run (fun _ => " ") (fun _ => Except.ok "z") 0 1).2) ∧
    countExtractCalls (run (fun _ => " ") (fun _ => Except.ok "z") 1 0).2 =
      countExtractCalls (run (fun _ => " ") (fun _ => Except.ok "z") 0 1).2 ∧
    countRejected (run (fun _ => " ") (fun _ => Except.ok "z") 1 0).2 =
      countRejected (run (fun _ => " ") (fun _ => Except.ok "z") 0 1).2 :=
  empty_input_reprompts (fun _ => " ") (fun _ => Except.ok "z") 0 0
    (by decide)

/-- C7: every Rejected cycle (sentinel or grammar mismatch) emits the
fixed rejection notice and re-prompts; the notice literally contains one
example of each accepted form, and each example is itself accepted by
the Validator. -/
theorem rejected_cycle_notice :
    rejectMsg =
      "Agent: Not a valid phone number. Please enter a valid Pakistani number (e.g., " ++
        "03207673078" ++ " or " ++ "+923207373878" ++ ")." ∧
    phoneFullmatch "03207673078" = true ∧
    phoneFullmatch "+923207373878" = true ∧
    ∀ (inputs : Nat → String) (extract : String → Except Unit String)
      (fuel i : Nat) (c : String), pyStrip (inputs i) ≠ "" →
      extract (pyStrip (inputs i)) = Except.ok c →
      cycleAccepts phoneFullmatch (pyStrip c) = false →
      run inputs extract (fuel + 1) i =
        ((run inputs extract fuel (i + 1)).1,
          Ev.prompt :: Ev.extractCall (pyStrip (inputs i)) ::
            Ev.notice rejectMsg :: (run inputs extract fuel (i + 1)).2) := by
  refine ⟨by decide, by decide, by decide, ?_⟩
  intro inputs extract fuel i c hne hok hrej
  simp [run, hne, hok, hrej]

/-- Witness for `rejected_cycle_notice` at a concrete mismatching
candidate. -/
theorem rejected_cycle_notice_witness :
    run (fun _ => "call me") (fun _ => Except.ok "0320767307") 1 0 =
      ((run (fun _ => "call me") (fun _ => Except.ok "0320767307") 0 1).1,
        Ev.prompt ::
          Ev.extractCall (pyStrip ((fun _ : Nat => "call me") 0)) ::
          Ev.notice rejectMsg ::
          (run (fun _ => "call me") (fun _ => Except.ok "0320767307") 0 1).2) :=
  rejected_cycle_notice.2.2.2 (fun _ => "call me")
    (fun _ => Except.ok "0320767307") 0 0 "0320767307" (by decide) rfl
    (by decide)

/-- Trace equation: a cycle with empty stripped input. -/
theorem run_empty_eq (inputs : Nat → String)
    (extract : String → Except Unit String) (fuel i : Nat)
    (h : pyStrip (inputs i) = "") :
    run inputs extract (fuel + 1) i =
      ((run inputs extract fuel (i + 1)).1,
        Ev.prompt :: Ev.notice emptyMsg ::
          (run inputs extract fuel (i + 1)).2) := by
  simp [run, h]

/-- Trace equation: a cycle on which the extraction call raises. -/
theorem run_abort_eq (inputs : Nat → String)
    (extract : String → Except Unit String) (fuel i : Nat) (e : Unit)
    (hne : pyStrip (inputs i) ≠ "")
    (hex : extract (pyStrip (inputs i)) = Except.error e) :
    run inputs extract (fuel + 1) i =
      (Outcome.aborted,
        [Ev.prompt, Ev.extractCall (pyStrip (inputs i))]) := by
  simp [run, hne, hex]

/-- Trace equation: a cycle whose stripped reply passes the acceptance
test. -/
theorem run_accept_eq (inputs : Nat → String)
    (extract : String → Except Unit String) (fuel i : Nat) (c : String)
    (hne : pyStrip (inputs i) ≠ "")
    (hex : extract (pyStrip (inputs i)) = Except.ok c)
    (hc : cycleAccepts phoneFullmatch (pyStrip c) = true) :
    run inputs extract (fuel + 1) i =
      (Outcome.accepted (pyStrip c),
        [Ev.prompt, Ev.extractCall (pyStrip (inputs i))]) := by
  simp [run, hne, hex, hc]

/-- Trace equation: a Rejected cycle (stripped reply fails the
acceptance test). -/
theorem run_reject_eq (inputs : Nat → String)
    (extract : String → Except Unit String) (fuel i : Nat) (c : String)
    (hne : pyStrip (inputs i) ≠ "")
    (hex : extract (pyStrip (inputs i)) = Except.ok c)
    (hc : cycleAccepts phoneFullmatch (pyStrip c) = false) :
    run inputs extract (fuel + 1) i =
      ((run inputs extract fuel (i + 1)).1,
        Ev.prompt :: Ev.extractCall (pyStrip (inputs i)) ::
          Ev.notice rejectMsg :: (run inputs extract fuel (i + 1)).2) := by
  simp [run, hne, hex, hc]

/-- Any accepted outcome passed the acceptance test, and the accepted
value is the stripped extraction reply of some reached cycle. -/
theorem run_accepted_spec (inputs : Nat → String)
    (extract : String → Except Unit String) :
    ∀ fuel i v es, run inputs extract fuel i = (Outcome.accepted v, es) →
      cycleAccepts phoneFullmatch v = true ∧
        ∃ k, i ≤ k ∧ pyStrip (inputs k) ≠ "" ∧
          ∃ c, extract (pyStrip (inputs k)) = Except.ok c ∧
            v = pyStrip c := by
  intro fuel
  induction fuel with
  | zero =>
    intro i v es h
    simp [run] at h
  | succ n ih =>
    intro i v es h
    by_cases hemp : pyStrip (inputs i) = ""
    · rw [run_empty_eq inputs extract n i hemp] at h
      have h1 : (run inputs extract n (i + 1)).1 = Outcome.accepted v :=
        congrArg Prod.fst h
      obtain ⟨hacc, k, hk, hkne, hkrest⟩ :=
        ih (i + 1) v (run inputs extract n (i + 1)).2 (by rw [← h1])
      exact ⟨hacc, k, Nat.le_trans (Nat.le_succ i) hk, hkne, hkrest⟩
    · rcases hex : extract (pyStrip (inputs i)) with e | c
      · rw [run_abort_eq inputs extract n i e hemp hex] at h
        exact absurd (congrArg Prod.fst h) (by simp)
      · by_cases hc : cycleAccepts phoneFullmatch (pyStrip c) = true
        · rw [run_accept_eq inputs extract n i c hemp hex hc] at h
          have h1 : Outcome.accepted (pyStrip c) = Outcome.accepted v :=
            congrArg Prod.fst h
          obtain rfl : pyStrip c = v := by injection h1
          exact ⟨hc, i, Nat.le_refl i, hemp, c, hex, rfl⟩
        · rw [run_reject_eq inputs extract n i c hemp hex
            (Bool.not_eq_true _ ▸ Bool.of_not_eq_true hc)] at h
          have h1 : (run inputs extract n (i + 1)).1 = Outcome.accepted v :=
            congrArg Prod.fst h
          obtain ⟨hacc, k, hk, hkne, hkrest⟩ :=
            ih (i + 1) v (run inputs extract n (i + 1)).2 (by rw [← h1])
          exact ⟨hacc, k, Nat.le_trans (Nat.le_succ i) hk, hkne, hkrest⟩

/-- If extraction is total and no cycle ever succeeds, the loop is still
running after any amount of fuel. -/
theorem run_never_terminates (inputs : Nat → String)
    (extract : String → Except Unit String)
    (htot : ∀ s, ∃ c, extract s = Except.ok c)
    (hno : ∀ j, ¬ cycleSucceeds inputs extract j) :
    ∀ fuel i, (run inputs extract fuel i).1 = Outcome.running := by
  intro fuel
  induction fuel with
  | zero => intro i; rfl
  | succ n ih =>
    intro i
    by_cases hemp : pyStrip (inputs i) = ""
    · rw [run_empty_eq inputs extract n i hemp]
      exact ih (i + 1)
    · obtain ⟨c, hex⟩ := htot (pyStrip (inputs i))
      have hc : cycleAccepts phoneFullmatch (pyStrip c) = false := by
        by_contra hcn
        exact hno i ⟨hemp, c, hex, Bool.of_not_eq_false hcn⟩
      rw [run_reject_eq inputs extract n i c hemp hex hc]
      exact ih (i + 1)

/-- With enough fuel, the loop accepts at the first succeeding cycle and
returns that cycle's candidate. -/
theorem run_first_success (inputs : Nat → String)
    (extract : String → Except Unit String) (k : Nat)
    (hk : cycleSucceeds inputs extract k) :
    ∀ fuel i, (∀ j, i ≤ j → j < k → ¬ cycleSucceeds inputs extract j) →
      (∀ j, i ≤ j → j < k →
        ∃ c, extract (pyStrip (inputs j)) = Except.ok c) →
      i ≤ k → k < i + fuel →
      (run inputs extract fuel i).1 =
        Outcome.accepted (candidateAt inputs extract k) := by
  intro fuel
  induction fuel with
  | zero =>
    intro i _ _ hik hlt
    exact absurd hlt (by omega)
  | succ n ih =>
    intro i hno htot hik hlt
    by_cases hieq : i = k
    · subst hieq
      obtain ⟨hne, c, hex, hacc⟩ := hk
      rw [run_accept_eq inputs extract n i c hne hex hacc]
      have hcand : candidateAt inputs extract i = pyStrip c := by
        unfold candidateAt
        rw [hex]
        rfl
      rw [hcand]
    · have hik' : i + 1 ≤ k := by omega
      by_cases hemp : pyStrip (inputs i) = ""
      · rw [run_empty_eq inputs extract n i hemp]
        exact ih (i + 1) (fun j h1 h2 => hno j (by omega) h2)
          (fun j h1 h2 => htot j (by omega) h2) hik' (by omega)
      · obtain ⟨c, hex⟩ := htot i (Nat.le_refl i) (by omega)
        have hc : cycleAccepts phoneFullmatch (pyStrip c) = false := by
          by_contra hcn
          exact hno i (Nat.le_refl i) (by omega)
            ⟨hemp, c, hex, Bool.of_not_eq_false hcn⟩
        rw [run_reject_eq inputs extract n i c hemp hex hc]
        exact ih (i + 1) (fun j h1 h2 => hno j (by omega) h2)
          (fun j h1 h2 => htot j (by omega) h2) hik' (by omega)

/-- If extraction is total, an aborted outcome is impossible: every run
is either still going or has accepted a value. -/
theorem run_no_abort (inputs : Nat → String)
    (extract : String → Except Unit String)
    (htot : ∀ s, ∃ c, extract s = Except.ok c) :
    ∀ fuel i, (run inputs extract fuel i).1 = Outcome.running ∨
      ∃ v, (run inputs extract fuel i).1 = Outcome.accepted v := by
  intro fuel
  induction fuel with
  | zero => intro i; exact Or.inl rfl
  | succ n ih =>
    intro i
    by_cases hemp : pyStrip (inputs i) = ""
    · rw [run_empty_eq inputs extract n i hemp]
      exact ih (i + 1)
    · obtain ⟨c, hex⟩ := htot (pyStrip (inputs i))
      by_cases hc : cycleAccepts phoneFullmatch (pyStrip c) = true
      · rw [run_accept_eq inputs extract n i c hemp hex hc]
        exact Or.inr ⟨pyStrip c, rfl⟩
      · rw [run_reject_eq inputs extract n i c hemp hex
          (Bool.not_eq_true _ ▸ Bool.of_not_eq_true hc)]
        exact ih (i + 1)

/-- C2: every terminating (accepting) run of the loop — over any
operator-input stream and extraction service — returns a string that
satisfies the target grammar and is not the sentinel: no unvalidated
value is ever returned to the caller. -/
theorem accepted_value_validated (inputs : Nat → String)
    (extract : String → Except Unit String) (fuel i : Nat) (v : String)
    (es : List Ev)
    (h : run inputs extract fuel i = (Outcome.accepted v, es)) :
    phoneFullmatch v = true ∧ v ≠ sentinel := by
  obtain ⟨hacc, -⟩ := run_accepted_spec inputs extract fuel i v es h
  unfold cycleAccepts at hacc
  rw [Bool.and_eq_true] at hacc
  exact ⟨hacc.2, bne_iff_ne.mp hacc.1⟩

/-- Witness for `accepted_value_validated` at a concrete accepting run. -/
theorem accepted_value_validated_witness :
    phoneFullmatch "03207673078" = true ∧ "03207673078" ≠ sentinel :=
  accepted_value_validated (fun _ => "p")
    (fun _ => Except.ok "03207673078") 1 0 "03207673078"
    [Ev.prompt, Ev.extractCall "p"] (by decide)

/-- C5: the retry loop is unbounded: with an extraction service that
never raises, if no cycle ever produces an accepted candidate the loop
is still running after any amount of fuel (no retry bound, no abandoned
outcome), and otherwise it terminates exactly at the first succeeding
cycle, returning that cycle's candidate. -/
theorem loop_unbounded_until_first_success :
    (∀ (inputs : Nat → String) (extract : String → Except Unit String),
      (∀ s, ∃ c, extract s = Except.ok c) →
      (∀ j, ¬ cycleSucceeds inputs extract j) →
      ∀ fuel i, (run inputs extract fuel i).1 = Outcome.running) ∧
    (∀ (inputs : Nat → String) (extract : String → Except Unit String)
      (k : Nat), cycleSucceeds inputs extract k →
      ∀ fuel i, (∀ j, i ≤ j → j < k → ¬ cycleSucceeds inputs extract j) →
        (∀ j, i ≤ j → j < k →
          ∃ c, extract (pyStrip (inputs j)) = Except.ok c) →
        i ≤ k → k < i + fuel →
        (run inputs extract fuel i).1 =
          Outcome.accepted (candidateAt inputs extract k)) :=
  ⟨run_never_terminates, run_first_success⟩

/-- Witness for `loop_unbounded_until_first_success`: a first cycle that
succeeds at once is accepted with one unit of fuel. -/
theorem loop_unbounded_until_first_success_witness :
    (run (fun _ => "p") (fun _ => Except.ok "03207673078") 1 0).1 =
      Outcome.accepted
        (candidateAt (fun _ => "p")
          (fun _ => Except.ok "03207673078") 0) :=
  loop_unbounded_until_first_success.2 (fun _ => "p")
    (fun _ => Except.ok "03207673078") 0
    ⟨by decide, "03207673078", rfl, by decide⟩ 1 0
    (fun j _ h2 => absurd h2 (Nat.not_lt_zero j))
    (fun j _ h2 => absurd h2 (Nat.not_lt_zero j))
    (Nat.le_refl 0) (by omega)

/-- C6 counterexample: an extraction-service failure on a cycle is fatal
to `get_patient_phoneNumber`, not recovered: with fuel left to continue,
a run whose first extraction call raises ends `aborted` — neither still
looping nor a success. -/
theorem extraction_failure_fatal_cex :
    (run (fun _ => "x") (fun _ => Except.error ()) 2 0).1 =
      Outcome.aborted := by
  decide

/-- C6 (amended): for the error conditions the code handles — empty
input, the sentinel, a grammar mismatch — nothing is fatal: as long as
the extraction service itself never raises, every run is still looping
or has accepted a value, so the only way out of the loop is success; an
extraction-service exception, however, propagates and aborts the call. -/
theorem errors_recoverable_when_extraction_total (inputs : Nat → String)
    (extract : String → Except Unit String)
    (htot : ∀ s, ∃ c, extract s = Except.ok c) (fuel i : Nat) :
    (run inputs extract fuel i).1 = Outcome.running ∨
      ∃ v, (run inputs extract fuel i).1 = Outcome.accepted v :=
  run_no_abort inputs extract htot fuel i

/-- Witness for `errors_recoverable_when_extraction_total` on a run that
keeps receiving the sentinel. -/
theorem errors_recoverable_witness :
    (run (fun _ => "x") (fun _ => Except.ok sentinel) 2 0).1 =
        Outcome.running ∨
      ∃ v, (run (fun _ => "x") (fun _ => Except.ok sentinel) 2 0).1 =
        Outcome.accepted v :=
  errors_recoverable_when_extraction_total (fun _ => "x")
    (fun _ => Except.ok sentinel) (fun _ => ⟨sentinel, rfl⟩) 2 0

/-- C10 counterexample: the core does clean the extraction reply: a
reply that matches the grammar except for surrounding whitespace is
stripped and accepted — returned in cleaned form, not rejected and not
character-for-character identical to the reply. -/
theorem reply_whitespace_cleaned_cex :
    (run (fun _ => "x")
        (fun _ => Except.ok (" " ++ "03207673078" ++ " ")) 1 0).1 =
      Outcome.accepted "03207673078" := by
  decide

/-- C10 (amended): the value an accepting run returns is the extraction
service's reply for a reached cycle with leading and trailing whitespace
stripped — `str.strip()` is the sole normalization the core applies —
and never the raw operator input taken directly. -/
theorem returned_value_is_stripped_reply :
    (∀ (inputs : Nat → String) (extract : String → Except Unit String)
      (fuel i : Nat) (v : String) (es : List Ev),
      run inputs extract fuel i = (Outcome.accepted v, es) →
      ∃ k, i ≤ k ∧ pyStrip (inputs k) ≠ "" ∧
        ∃ c, extract (pyStrip (inputs k)) = Except.ok c ∧
          v = pyStrip c) ∧
    (run (fun _ => "my number is 03207673078")
        (fun _ => Except.ok "03207673078") 1 0).1 =
      Outcome.accepted "03207673078" := by
  refine ⟨?_, by decide⟩
  intro inputs extract fuel i v es h
  exact (run_accepted_spec inputs extract fuel i v es h).2

/-- Witness for `returned_value_is_stripped_reply` at a concrete
accepting run with a padded reply. -/
theorem returned_value_is_stripped_reply_witness :
    ∃ k : Nat, 0 ≤ k ∧ pyStrip "p" ≠ "" ∧
      ∃ c, (Except.ok " 03207673078" : Except Unit String) =
          Except.ok c ∧
        "03207673078" = pyStrip c :=
  returned_value_is_stripped_reply.1 (fun _ => "p")
    (fun _ => Except.ok " 03207673078") 1 0 "03207673078"
    [Ev.prompt, Ev.extractCall "p"] (by decide)

end CallCenter
